import Mathlib

/-!
Shallow embedding of `vendor/github.com/mesos/mesos-go/api/v1/lib/httpcli/apierrors/apierrors.go`.

The Go package classifies HTTP response status codes into Mesos v1 API errors.
Machine integers are modelled as `Int`; the response body byte stream is
modelled as a list of characters (one character per byte) together with a flag
recording whether the underlying reader fails after delivering its bytes.
`FromResponse` additionally returns the number of times the body stream was
closed, making the deferred `res.Body.Close()` call explicit.
-/

namespace apierrors

/-- `Code` is a Mesos HTTP v1 API response status code (Go: `type Code int`). -/
abbrev Code := Int

/-- Go: `MsgNotLeader`. -/
def MsgNotLeader : String := "call sent to a non-leading master"

/-- Go: `MsgAuth`. -/
def MsgAuth : String := "call not authenticated"

/-- Go: `MsgUnsubscribed`. -/
def MsgUnsubscribed : String := "no subscription established"

/-- Go: `MsgVersion`. -/
def MsgVersion : String := "incompatible API version"

/-- Go: `MsgMalformed`. -/
def MsgMalformed : String := "malformed request"

/-- Go: `MsgMediaType`. -/
def MsgMediaType : String := "unsupported media type"

/-- Go: `MsgRateLimit`. -/
def MsgRateLimit : String := "rate limited"

/-- Go: `MsgUnavailable`. -/
def MsgUnavailable : String := "mesos server unavailable"

/-- Go: `MsgNotFound`. -/
def MsgNotFound : String := "mesos http endpoint not found"

/-- Go: `CodeNotLeader = Code(http.StatusTemporaryRedirect)`. -/
def CodeNotLeader : Code := 307

/-- Go: `CodeNotAuthenticated = Code(http.StatusUnauthorized)`. -/
def CodeNotAuthenticated : Code := 401

/-- Go: `CodeUnsubscribed = Code(http.StatusForbidden)`. -/
def CodeUnsubscribed : Code := 403

/-- Go: `CodeIncompatibleVersion = Code(http.StatusConflict)`. -/
def CodeIncompatibleVersion : Code := 409

/-- Go: `CodeMalformedRequest = Code(http.StatusBadRequest)`. -/
def CodeMalformedRequest : Code := 400

/-- Go: `CodeUnsupportedMediaType = Code(http.StatusNotAcceptable)`. -/
def CodeUnsupportedMediaType : Code := 406

/-- Go: `CodeRateLimitExceeded = Code(http.StatusTooManyRequests)`. -/
def CodeRateLimitExceeded : Code := 429

/-- Go: `CodeMesosUnavailable = Code(http.StatusServiceUnavailable)`. -/
def CodeMesosUnavailable : Code := 503

/-- Go: `CodeNotFound = Code(http.StatusNotFound)`. -/
def CodeNotFound : Code := 404

/-- Go: `MaxSizeDetails = 4 * 1024`, limits the length of the details
message read from a response body. -/
def MaxSizeDetails : Nat := 4 * 1024

/-- The `ErrorTable` map literal, embedded as an association list in the
source's entry order (Go map keys are distinct, so lookup order is
immaterial). -/
def ErrorTableList : List (Code × String) :=
  [(CodeNotLeader, MsgNotLeader),
   (CodeMalformedRequest, MsgMalformed),
   (CodeIncompatibleVersion, MsgVersion),
   (CodeUnsubscribed, MsgUnsubscribed),
   (CodeNotAuthenticated, MsgAuth),
   (CodeUnsupportedMediaType, MsgMediaType),
   (CodeNotFound, MsgNotFound),
   (CodeMesosUnavailable, MsgUnavailable),
   (CodeRateLimitExceeded, MsgRateLimit)]

/-- Go map read `ErrorTable[code]`: yields the mapped message, or the zero
value `""` when `code` is not a key. -/
def lookupErrorTable (code : Code) : String :=
  ((ErrorTableList.find? (fun p => p.1 == code)).map Prod.snd).getD ""

/-- Go: `type Error struct { code Code; message string }`. -/
structure Error where
  code : Code
  message : String
deriving Repr, DecidableEq

/-- Go: `func (code Code) IsError() bool { return code >= 300 }`. -/
def Code.IsError (code : Code) : Bool :=
  decide (300 ≤ code)

/-- Go: `func (code Code) Error(details string) error`. A Go `nil` error is
`none`; a `*Error` is `some`. -/
def Code.Error (code : Code) (details : String) : Option apierrors.Error :=
  if Code.IsError code = false then
    none
  else
    let message := lookupErrorTable code
    let message := if details ≠ "" then message ++ ": " ++ details else message
    some { code := code, message := message }

/-- The response body stream: `content` is the byte sequence the reader
delivers (one character per byte), `readErr` records whether the reader then
fails with an I/O error. -/
structure Body where
  content : List Char
  readErr : Bool
deriving Repr, DecidableEq

/-- The slice of `http.Response` that `FromResponse` consumes: the status
code and the (possibly absent) body stream. -/
structure Response where
  statusCode : Int
  body : Option Body
deriving Repr, DecidableEq

/-- Go: `buf, _ := ioutil.ReadAll(io.LimitReader(res.Body, MaxSizeDetails));
details = string(buf)`. `LimitReader` stops after `MaxSizeDetails` bytes;
`ReadAll` returns the bytes delivered before any read error, and the error
itself is discarded (`_`), so `readErr` plays no role. -/
def captureDetails (b : Body) : String :=
  String.mk (b.content.take MaxSizeDetails)

/-- Go: `func FromResponse(res *http.Response) error`. The second component
counts how many times `res.Body.Close()` ran: the source defers the close
only after entering the `res.Body != nil` branch, which is reached only when
the status code is an error code. -/
def FromResponse (res : Option Response) : Option apierrors.Error × Nat :=
  match res with
  | none => (none, 0)
  | some r =>
    let code : Code := r.statusCode
    if Code.IsError code = false then
      (none, 0)
    else
      match r.body with
      | none => (Code.Error code "", 0)
      | some b => (Code.Error code (captureDetails b), 1)

/-- Go: `func (e *Error) Temporary() bool` — the switch matches
`CodeRateLimitExceeded, CodeMesosUnavailable` and defaults to false. -/
def Error.Temporary (e : Error) : Bool :=
  decide (e.code = CodeRateLimitExceeded ∨ e.code = CodeMesosUnavailable)

/-- Go: `var CodesIndicatingSubscriptionLoss = ...` — the initial contents of
the process-wide set, built from `CodeUnsubscribed`. The set is a mutable
package variable; its value at any instant is a list of codes. -/
def CodesIndicatingSubscriptionLoss : List Code :=
  [CodeUnsubscribed]

/-- Go: `func (e *Error) SubscriptionLoss() bool` — membership test of
`e.code` in the set; `codes` is the value of the package variable
`CodesIndicatingSubscriptionLoss` at the time of the call. -/
def Error.SubscriptionLoss (codes : List Code) (e : Error) : Bool :=
  codes.contains e.code

/-- A Go `error` value handed to `Code.Matches`: either a `*apierrors.Error`
or some other error type (the type assertion `err.(*Error)` fails on it). -/
inductive GoError where
  | api : Error → GoError
  | other : String → GoError
deriving Repr, DecidableEq

/-- Go: `func (code Code) Matches(err error) bool`. -/
def Code.Matches (code : Code) (err : Option GoError) : Bool :=
  match err with
  | none => !(Code.IsError code)
  | some (GoError.api e) => e.code == code
  | some (GoError.other _) => false

/-- Claim C1, counterexample: a response with status 200 and a present body
exits `FromResponse` with `nil` and with zero closes of the body stream —
the early return for non-error status codes happens before the
`defer res.Body.Close()` is installed, so the body is not released exactly
once on this exit path. -/
theorem C1_counterexample :
    (FromResponse (some ⟨200, some ⟨['a'], false⟩⟩)).1 = none ∧
    ¬ (FromResponse (some ⟨200, some ⟨['a'], false⟩⟩)).2 = 1 := by
  decide

/-- Claim C1, amended: the body stream is closed exactly once if and only if
the status code is an error code (≥ 300) and the body is present — including
when the read fails, since `readErr` is arbitrary here; on the non-error
path (< 300), for an absent body, and for a nil response, the body is never
closed. -/
theorem C1_bodyClose :
    (FromResponse none).2 = 0 ∧
    (∀ r : Response, r.body = none → (FromResponse (some r)).2 = 0) ∧
    ∀ (r : Response) (b : Body), r.body = some b →
      (FromResponse (some r)).2 = if 300 ≤ r.statusCode then 1 else 0 := by
  refine ⟨rfl, fun r h => ?_, fun r b h => ?_⟩ <;> rcases r with ⟨sc, rb⟩ <;>
    subst h <;> by_cases h3 : (300 : Int) ≤ sc <;>
    simp [FromResponse, Code.IsError, h3]

/-- Witness for C1_bodyClose at a concrete response with status 403 and a
present body: exactly one close. -/
theorem C1_bodyClose_witness :
    ((⟨403, some ⟨['a'], false⟩⟩ : Response).body = some ⟨['a'], false⟩) ∧
    (FromResponse (some ⟨403, some ⟨['a'], false⟩⟩)).2 =
      if 300 ≤ (⟨403, some ⟨['a'], false⟩⟩ : Response).statusCode then 1 else 0 :=
  ⟨rfl, C1_bodyClose.2.2 ⟨403, some ⟨['a'], false⟩⟩ ⟨['a'], false⟩ rfl⟩

/-- Claim C2: 499 is not in the error table, `Code.Error 499 ""` yields an
error with the empty message, and `Code.Error 499 d` for non-empty `d`
yields the message `": " ++ d` — the base message and the `": "` delimiter
are concatenated literally even though the base is empty. -/
theorem C2_unrecognizedCode :
    lookupErrorTable 499 = "" ∧
    Code.Error 499 "" = some ⟨499, ""⟩ ∧
    ∀ d : String, d ≠ "" → Code.Error 499 d = some ⟨499, ": " ++ d⟩ := by
  refine ⟨rfl, by decide, fun d hd => ?_⟩
  simp [Code.Error, Code.IsError, hd]
  rw [show lookupErrorTable 499 ++ ": " = ": " from rfl]

/-- Witness for C2_unrecognizedCode at details `"x"`. -/
theorem C2_unrecognizedCode_witness :
    ("x" : String) ≠ "" ∧ Code.Error 499 "x" = some ⟨499, ": x"⟩ :=
  ⟨by decide, C2_unrecognizedCode.2.2 "x" (by decide)⟩

/-- Claim C3: for every code in the nine-entry error table and every details
string, `Code.Error` yields the canned table message when details is empty
and the canned message followed by `": "` and the details otherwise; in
particular for 503 with empty details the message is exactly
"mesos server unavailable", and with details "overloaded" it is
"mesos server unavailable: overloaded". -/
theorem C3_errorTableMessages :
    Code.Error 503 "" = some ⟨503, "mesos server unavailable"⟩ ∧
    Code.Error 503 "overloaded" =
      some ⟨503, "mesos server unavailable: overloaded"⟩ ∧
    ∀ c m d, (c, m) ∈ ErrorTableList →
      Code.Error c d = some ⟨c, if d = "" then m else m ++ ": " ++ d⟩ := by
  refine ⟨by decide, by decide, fun c m d h => ?_⟩
  fin_cases h <;>
    by_cases hd : d = "" <;>
      simp [Code.Error, lookupErrorTable, ErrorTableList, Code.IsError, hd,
        CodeNotLeader, CodeMalformedRequest, CodeIncompatibleVersion,
        CodeUnsubscribed, CodeNotAuthenticated, CodeUnsupportedMediaType,
        CodeNotFound, CodeMesosUnavailable, CodeRateLimitExceeded]

/-- Witness for C3_errorTableMessages at the 503 table entry with details
"overloaded". -/
theorem C3_errorTableMessages_witness :
    ((CodeMesosUnavailable, MsgUnavailable) ∈ ErrorTableList) ∧
    Code.Error CodeMesosUnavailable "overloaded" =
      some ⟨CodeMesosUnavailable,
        if "overloaded" = "" then MsgUnavailable
        else MsgUnavailable ++ ": " ++ "overloaded"⟩ :=
  ⟨by decide,
    C3_errorTableMessages.2.2 CodeMesosUnavailable MsgUnavailable "overloaded"
      (by decide)⟩

/-- Claim C4: `FromResponse` yields nil exactly when the response is nil or
its status code is below 300; for every response with status code ≥ 300 it
yields a classified error carrying that status code. -/
theorem C4_classification :
    (FromResponse none).1 = none ∧
    ∀ r : Response,
      ((FromResponse (some r)).1 = none ↔ r.statusCode < 300) ∧
      (300 ≤ r.statusCode →
        ∃ e, (FromResponse (some r)).1 = some e ∧ e.code = r.statusCode) := by
  refine ⟨rfl, fun r => ⟨?_, ?_⟩⟩
  · rcases r with ⟨sc, b⟩
    by_cases h : (300 : Int) ≤ sc
    · rcases b with _ | b <;>
        simp [FromResponse, Code.IsError, Code.Error, h]
    · rcases b with _ | b <;>
        simp [FromResponse, Code.IsError, h] <;> omega
  · intro h
    rcases r with ⟨sc, b⟩
    rcases b with _ | b <;>
      simp [FromResponse, Code.IsError, Code.Error, h]

/-- Witness for C4_classification at a bodiless 503 response. -/
theorem C4_classification_witness :
    (300 : Int) ≤ (⟨503, none⟩ : Response).statusCode ∧
    ∃ e, (FromResponse (some ⟨503, none⟩)).1 = some e ∧
      e.code = (⟨503, none⟩ : Response).statusCode :=
  ⟨by decide, (C4_classification.2 ⟨503, none⟩).2 (by decide)⟩

/-- Claim C5: the initial subscription-loss set contains exactly the
forbidden/unsubscribed code 403, and `SubscriptionLoss` is true exactly when
the error's code is a member of the set passed at the time of the call — so
any code added to the set at runtime makes it true, and codes outside the
set make it false. -/
theorem C5_subscriptionLoss :
    CodesIndicatingSubscriptionLoss = [CodeUnsubscribed] ∧
    CodeUnsubscribed = 403 ∧
    ∀ (codes : List Code) (e : Error),
      Error.SubscriptionLoss codes e = true ↔ e.code ∈ codes := by
  refine ⟨rfl, rfl, fun codes e => ?_⟩
  simp [Error.SubscriptionLoss]

/-- Claim C6: `Temporary` is true exactly for codes 429 (rate limited) and
503 (service unavailable), and in particular false for 404 and 403. -/
theorem C6_temporary :
    (∀ e : Error, Error.Temporary e = true ↔ (e.code = 429 ∨ e.code = 503)) ∧
    Error.Temporary ⟨404, ""⟩ = false ∧
    Error.Temporary ⟨403, ""⟩ = false := by
  refine ⟨fun e => ?_, by decide, by decide⟩
  simp [Error.Temporary, CodeRateLimitExceeded, CodeMesosUnavailable]

/-- Claim C7: `Matches` is true exactly when either the error is nil and the
code is not an error code, or the error is a classified API error whose
stored code equals the given code; it is false for nil with an error code
and for any non-API error value. -/
theorem C7_matches :
    ∀ (code : Code) (err : Option GoError),
      Code.Matches code err = true ↔
        ((err = none ∧ Code.IsError code = false) ∨
          ∃ e, err = some (GoError.api e) ∧ e.code = code) := by
  intro code err
  rcases err with _ | e
  · simp [Code.Matches]
  · rcases e with e | s <;> simp [Code.Matches]

/-- Claim C8: `IsError` holds exactly for status codes ≥ 300, and for every
code below 300 `Code.Error` yields nil regardless of the details string. -/
theorem C8_isError :
    ∀ (c : Code) (d : String),
      (Code.IsError c = true ↔ 300 ≤ c) ∧ (c < 300 → Code.Error c d = none) := by
  intro c d
  constructor
  · simp [Code.IsError]
  · intro h
    have hf : Code.IsError c = false := by
      simp [Code.IsError]
      exact h
    simp [Code.Error, hf]

/-- Witness for C8_isError at code 200. -/
theorem C8_isError_witness :
    (200 : Code) < 300 ∧ Code.Error 200 "x" = none :=
  ⟨by decide, (C8_isError 200 "x").2 (by decide)⟩

/-- Claim C9: the captured details never exceed 4096 bytes, a 10000-byte
body yields details of length exactly 4096, and a read error on the body
(`readErr = true`) does not prevent the classified error from being
constructed and returned with the response's status code. -/
theorem C9_detailsTruncation :
    (∀ b : Body, (captureDetails b).length ≤ MaxSizeDetails) ∧
    (captureDetails ⟨List.replicate 10000 'a', false⟩).length = 4096 ∧
    ∀ (r : Response) (b : Body), r.body = some b → b.readErr = true →
      300 ≤ r.statusCode →
        (FromResponse (some r)).1 = Code.Error r.statusCode (captureDetails b) ∧
        ∃ e, (FromResponse (some r)).1 = some e ∧ e.code = r.statusCode := by
  refine ⟨fun b => ?_, ?_, fun r b hb _ h3 => ?_⟩
  · show (String.mk (b.content.take MaxSizeDetails)).length ≤ MaxSizeDetails
    rw [show ∀ l : List Char, (String.mk l).length = l.length from fun l => rfl,
      List.length_take]
    exact Nat.min_le_left _ _
  · show (String.mk ((List.replicate 10000 'a').take MaxSizeDetails)).length = 4096
    rw [show ∀ l : List Char, (String.mk l).length = l.length from fun l => rfl,
      List.length_take, List.length_replicate]
    rfl
  · rcases r with ⟨sc, rb⟩
    subst hb
    simp only at h3
    simp [FromResponse, Code.IsError, Code.Error, h3]

/-- Witness for C9_detailsTruncation at a 500 response whose body reader
fails after delivering one byte. -/
theorem C9_detailsTruncation_witness :
    ((⟨500, some ⟨['z'], true⟩⟩ : Response).body = some ⟨['z'], true⟩) ∧
    (Body.readErr ⟨['z'], true⟩ = true) ∧
    ((300 : Int) ≤ (⟨500, some ⟨['z'], true⟩⟩ : Response).statusCode) ∧
    ((FromResponse (some ⟨500, some ⟨['z'], true⟩⟩)).1 =
        Code.Error (⟨500, some ⟨['z'], true⟩⟩ : Response).statusCode
          (captureDetails ⟨['z'], true⟩) ∧
      ∃ e, (FromResponse (some ⟨500, some ⟨['z'], true⟩⟩)).1 = some e ∧
        e.code = (⟨500, some ⟨['z'], true⟩⟩ : Response).statusCode) :=
  ⟨rfl, rfl, by decide,
    C9_detailsTruncation.2.2 ⟨500, some ⟨['z'], true⟩⟩ ⟨['z'], true⟩ rfl rfl
      (by decide)⟩

/-- Claim C10: for every non-nil response, matching the response's own
status code against the result of `FromResponse` succeeds — a nil result
vacuously matches a non-error code, and an error result carries exactly the
response's status code. -/
theorem C10_roundTrip :
    ∀ r : Response,
      Code.Matches r.statusCode
        (((FromResponse (some r)).1).map GoError.api) = true := by
  intro r
  rcases r with ⟨sc, b⟩
  by_cases h : Code.IsError sc = false
  · simp [FromResponse, h, Code.Matches]
  · rcases b with _ | b <;>
      simp [FromResponse, h, Code.Matches, Code.Error]

end apierrors
